import Mathlib

/-!
Package cloudlog: severity mapping, option resolution, configuration builders
and logger facade.

A shallow embedding of the Go package `cloudlog` (files `zap_config.go`,
`options.go`, `zap_option.go`, `logger.go`) and the properties proved about it.

Conventions of the embedding.

* `zapcore.Level` is an `int8`; it is embedded as `Int` with the seven named
  constants of the engine (`DebugLevel = -1` up to `FatalLevel = 5`).
* Go `string` values are embedded as `String`; a `switch` on a string compares
  for exact equality, case by case from top to bottom.
* The logging engine (zap) is not part of the package. Its handles are embedded
  only as far as the package drives them: a handle records the configuration it
  was built from and the static fields attached to it, and every call the
  facade makes on a handle is recorded as an `EngineCall`.
-/

set_option autoImplicit false

namespace Cloudlog

/-! ## Severity mapper (`zap_config.go`) -/

/-- Severity level of the engine, `zapcore.Level` (an `int8`). -/
abbrev Level := Int

/-- Engine constant `zapcore.DebugLevel`. -/
def DebugLevel : Level := -1
/-- Engine constant `zapcore.InfoLevel` (the zero value). -/
def InfoLevel : Level := 0
/-- Engine constant `zapcore.WarnLevel`. -/
def WarnLevel : Level := 1
/-- Engine constant `zapcore.ErrorLevel`. -/
def ErrorLevel : Level := 2
/-- Engine constant `zapcore.DPanicLevel`. -/
def DPanicLevel : Level := 3
/-- Engine constant `zapcore.PanicLevel`. -/
def PanicLevel : Level := 4
/-- Engine constant `zapcore.FatalLevel`. -/
def FatalLevel : Level := 5

/-- Go `unmarshalLogLevel` (`zap_config.go`, lines 53-72): a `switch` over the
exact spellings, the default branch returning `InfoLevel`. -/
def unmarshalLogLevel (text : String) : Level :=
  if text = "debug" ∨ text = "DEBUG" then DebugLevel
  else if text = "info" ∨ text = "INFO" ∨ text = "" then InfoLevel
  else if text = "warn" ∨ text = "WARN" then WarnLevel
  else if text = "error" ∨ text = "ERROR" then ErrorLevel
  else if text = "dpanic" ∨ text = "DPANIC" then DPanicLevel
  else if text = "panic" ∨ text = "PANIC" then PanicLevel
  else if text = "fatal" ∨ text = "FATAL" then FatalLevel
  else InfoLevel

/-- Go `marshalLogLevel` (`zap_config.go`, lines 75-94): a `switch` over the
seven level constants, the default branch returning "INFO". -/
def marshalLogLevel (l : Level) : String :=
  if l = DebugLevel then "DEBUG"
  else if l = InfoLevel then "INFO"
  else if l = WarnLevel then "WARNING"
  else if l = ErrorLevel then "ERROR"
  else if l = DPanicLevel then "CRITICAL"
  else if l = PanicLevel then "ALERT"
  else if l = FatalLevel then "EMERGENCY"
  else "INFO"

/-- The engine's `zapcore.PrimitiveArrayEncoder`, as far as `encodeLevel` uses
it: the sequence of strings appended so far. -/
abbrev PrimitiveArrayEncoder := List String

/-- Engine method `AppendString` of the array encoder. -/
def AppendString (enc : PrimitiveArrayEncoder) (s : String) : PrimitiveArrayEncoder :=
  enc ++ [s]

/-- Go `encodeLevel` (`zap_config.go`, lines 48-50). -/
def encodeLevel (l : Level) (enc : PrimitiveArrayEncoder) : PrimitiveArrayEncoder :=
  AppendString enc (marshalLogLevel l)

/-- Lower-casing of a text, letter by letter (the letters `A`-`Z` become
`a`-`z`, every other character is kept). Used only to state what "ignoring
case" means; the program never calls it. -/
def lowerCased (text : String) : String :=
  String.mk (text.data.map Char.toLower)

/-- The seven accepted aliases, in lower case. -/
def aliases : List String :=
  ["debug", "info", "warn", "error", "dpanic", "panic", "fatal"]

/-- The seven severities of the engine. -/
def severities : List Level :=
  [DebugLevel, InfoLevel, WarnLevel, ErrorLevel, DPanicLevel, PanicLevel, FatalLevel]

/-! ## Option resolver (`options.go`) -/

/-- Go struct `loggerOptions` (`options.go`, lines 7-11). -/
structure loggerOptions where
  needErrorReporting : Bool
  serviceName : String
  logLevel : String

/-- Go type `Option` (`options.go`, line 5), a function that mutates the draft
`*loggerOptions`; embedded as a state transformer. It is called `Opt` here
because `Option` is the name of the optional-value type. -/
abbrev Opt := loggerOptions → loggerOptions

/-- Go constant `defaultNeedErrorReporting`. -/
def defaultNeedErrorReporting : Bool := false
/-- Go constant `defaultServiceName`. -/
def defaultServiceName : String := "golang-app"
/-- Go constant `defaultLogLevel`. -/
def defaultLogLevel : String := "debug"

/-- Go `NeedErrorReporting` (`options.go`, lines 20-24). -/
def NeedErrorReporting (needErrorReporting : Bool) : Opt :=
  fun lo => loggerOptions.mk needErrorReporting lo.serviceName lo.logLevel

/-- Go `ServiceName` (`options.go`, lines 27-31). -/
def ServiceName (serviceName : String) : Opt :=
  fun lo => loggerOptions.mk lo.needErrorReporting serviceName lo.logLevel

/-- Go `LogLevel` (`options.go`, lines 34-38). -/
def LogLevel (logLevel : String) : Opt :=
  fun lo => loggerOptions.mk lo.needErrorReporting lo.serviceName logLevel

/-- Go `getOptions` (`options.go`, lines 40-57): the draft starts at the three
defaults, every option is applied to it in the order of the slice, and the
three fields of the draft are returned. -/
def getOptions (options : List Opt) : Bool × String × String :=
  let loggerOps := options.foldl (fun lo option => option lo)
    (loggerOptions.mk defaultNeedErrorReporting defaultServiceName defaultLogLevel)
  (loggerOps.needErrorReporting, loggerOps.serviceName, loggerOps.logLevel)

/-- An override as the three exported constructors can build it. -/
inductive Override where
  | needErrorReporting (b : Bool)
  | serviceName (s : String)
  | logLevel (s : String)

/-- The option an override stands for. -/
def Override.toOpt : Override → Opt
  | Override.needErrorReporting b => NeedErrorReporting b
  | Override.serviceName s => ServiceName s
  | Override.logLevel s => LogLevel s

/-- The value an override gives to `needErrorReporting`, if it is one of that field. -/
def Override.needErrorReporting? : Override → Option Bool
  | Override.needErrorReporting b => some b
  | _ => none

/-- The value an override gives to `serviceName`, if it is one of that field. -/
def Override.serviceName? : Override → Option String
  | Override.serviceName s => some s
  | _ => none

/-- The value an override gives to `logLevel`, if it is one of that field. -/
def Override.logLevel? : Override → Option String
  | Override.logLevel s => some s
  | _ => none

/-- Last-write-wins resolution as the specification words it: for each field
the value of the last override of that field in the list (the first one met
when the list is read from its end), or the default when there is none. -/
def lastWriteWins (overrides : List Override) : Bool × String × String :=
  ((overrides.reverse.findSome? Override.needErrorReporting?).getD false,
   (overrides.reverse.findSome? Override.serviceName?).getD "golang-app",
   (overrides.reverse.findSome? Override.logLevel?).getD "debug")

/-! ## Environment configuration builders (`zap_config.go`) -/

/-- Engine struct `zap.SamplingConfig`, the two fields the package sets. -/
structure SamplingConfig where
  Initial : Int
  Thereafter : Int
  deriving DecidableEq

/-- Stock time encoders of the engine. -/
inductive TimeEncoder where
  | EpochTimeEncoder | EpochMillisTimeEncoder | EpochNanosTimeEncoder
  | ISO8601TimeEncoder | RFC3339TimeEncoder | RFC3339NanoTimeEncoder
  deriving DecidableEq

/-- Stock duration encoders of the engine. -/
inductive DurationEncoder where
  | SecondsDurationEncoder | NanosDurationEncoder | MillisDurationEncoder
  | StringDurationEncoder
  deriving DecidableEq

/-- Stock caller encoders of the engine. -/
inductive CallerEncoder where
  | FullCallerEncoder | ShortCallerEncoder
  deriving DecidableEq

/-- Engine constant `zapcore.DefaultLineEnding`. -/
def DefaultLineEnding : String := "\n"

/-- Engine struct `zapcore.EncoderConfig`, the fields the package sets. -/
structure EncoderConfig where
  TimeKey : String
  LevelKey : String
  NameKey : String
  CallerKey : String
  MessageKey : String
  StacktraceKey : String
  EncodeTime : TimeEncoder
  LineEnding : String
  EncodeLevel : Level → PrimitiveArrayEncoder → PrimitiveArrayEncoder
  EncodeDuration : DurationEncoder
  EncodeCaller : CallerEncoder

/-- Engine struct `zap.Config`, the fields the package sets. `Level` holds the
level given to `zap.NewAtomicLevelAt`. -/
structure ZapConfig where
  Level : Int
  Development : Bool
  Sampling : Option SamplingConfig
  Encoding : String
  EncoderConfig : Cloudlog.EncoderConfig
  OutputPaths : List String
  ErrorOutputPaths : List String

/-- Go `NewCloudZapConfig` (`zap_config.go`, lines 9-34). -/
def NewCloudZapConfig (level encoding : String) : ZapConfig :=
  ZapConfig.mk
    (unmarshalLogLevel level)
    false
    (some (SamplingConfig.mk 1 1))
    encoding
    (EncoderConfig.mk "eventTime" "severity" "logger" "caller" "message" "stack_trace"
      TimeEncoder.ISO8601TimeEncoder DefaultLineEnding encodeLevel
      DurationEncoder.SecondsDurationEncoder CallerEncoder.ShortCallerEncoder)
    ["stderr"]
    ["stderr"]

/-- Go `NewLocalZapConfig` (`zap_config.go`, lines 37-46). The result of the
engine function `zap.NewDevelopmentEncoderConfig()` is the first argument;
`Sampling` is left unset by the source. -/
def NewLocalZapConfig (developmentEncoderConfig : EncoderConfig)
    (level encoding : String) : ZapConfig :=
  ZapConfig.mk
    (unmarshalLogLevel level)
    true
    none
    encoding
    developmentEncoderConfig
    ["stderr"]
    ["stderr"]

/-! ## Context option assembler (`zap_option.go`) -/

/-- Go struct `serviceContext` (`zap_option.go`, lines 8-10). -/
structure serviceContext where
  Service : String
  deriving DecidableEq

/-- The engine's `zapcore.ObjectEncoder`, as far as `MarshalLogObject` uses
it: the string entries added so far. -/
abbrev ObjectEncoder := List (String × String)

/-- Go `serviceContext.MarshalLogObject` (`zap_option.go`, lines 14-17): adds
the entry `service` and returns no error. -/
def serviceContext.MarshalLogObject (s : serviceContext) (enc : ObjectEncoder) :
    ObjectEncoder × Option String :=
  (enc ++ [("service", s.Service)], none)

/-- A static field of the engine (`zap.Field`), in the two shapes the package
builds: `zap.Object(key, serviceContext)` and `zap.String(key, value)`. -/
inductive ZapField where
  | Object (key : String) (val : serviceContext)
  | Str (key : String) (val : String)
  deriving DecidableEq

/-- Key of a static field. -/
def ZapField.key : ZapField → String
  | ZapField.Object key _ => key
  | ZapField.Str key _ => key

/-- An engine option (`zap.Option`), in the one shape the package builds:
`zap.Fields(fields...)`. -/
inductive ZapOption where
  | Fields (fs : List ZapField)

/-- An engine handle (`*zap.Logger`), as far as the package determines it: the
configuration it was built from and the static fields attached to it, in the
order they were attached. -/
structure ZapLogger where
  config : ZapConfig
  fields : List ZapField

/-- Engine method `(*zap.Logger).With`: a derived handle carrying the extra
fields; the receiver is not changed. -/
def ZapLogger.With (z : ZapLogger) (fs : List ZapField) : ZapLogger :=
  ZapLogger.mk z.config (z.fields ++ fs)

/-- Effect of an engine option on a handle: `zap.Fields` attaches its fields. -/
def ZapOption.apply : ZapOption → ZapLogger → ZapLogger
  | ZapOption.Fields fs, z => z.With fs

/-- The sugared view of a handle (`*zap.SugaredLogger`). -/
structure SugaredLogger where
  base : ZapLogger

/-- Engine method `(*zap.Logger).Sugar`. -/
def ZapLogger.Sugar (z : ZapLogger) : SugaredLogger :=
  SugaredLogger.mk z

/-- What the package needs from the engine to construct a logger. -/
structure Engine where
  /-- Result of `zap.NewDevelopmentEncoderConfig()`. -/
  NewDevelopmentEncoderConfig : EncoderConfig
  /-- The error with which `Config.Build` rejects a configuration (an encoding
  name that is not registered, a sink that cannot be opened), `none` when it
  accepts it. -/
  buildError : ZapConfig → Option String

/-- Engine method `zap.Config.Build`: fails with the engine's error, or yields
a handle for the configuration with the options applied in order. The
configurations of this package leave `InitialFields` unset, so the handle
starts without static fields. -/
def Build (engine : Engine) (config : ZapConfig) (opts : List ZapOption) :
    Except String ZapLogger :=
  match engine.buildError config with
  | some err => Except.error err
  | none => Except.ok (opts.foldl (fun z o => o.apply z) (ZapLogger.mk config []))

/-- Go `GetCloudServiceContextOption` (`zap_option.go`, lines 22-24). -/
def GetCloudServiceContextOption (serviceName : String) : ZapOption :=
  ZapOption.Fields [ZapField.Object "serviceContext" (serviceContext.mk serviceName)]

/-- Go `AddCloudErrorReportingOption` (`zap_option.go`, lines 29-33). -/
def AddCloudErrorReportingOption (zapLogger : ZapLogger) : ZapLogger :=
  let typeKey := "@type"
  let typeValue :=
    "type.googleapis.com/google.devtools.clouderrorreporting.v1beta1.ReportedErrorEvent"
  zapLogger.With [ZapField.Str typeKey typeValue]

/-! ## Logger facade (`logger.go`) -/

/-- Go struct `Logger` (`logger.go`, lines 9-14). -/
structure Logger where
  zapLogger : ZapLogger
  sugar : SugaredLogger
  errorZapLogger : ZapLogger
  errorSugar : SugaredLogger

/-- Go `NewCloudLogger` (`logger.go`, lines 19-40). A construction error of the
engine is wrapped with the prefix of the cloud path and no logger is returned. -/
def NewCloudLogger (engine : Engine) (options : List Opt) : Except String Logger :=
  let (needErrorReporting, serviceName, logLevel) := getOptions options
  let config := NewCloudZapConfig logLevel "json"
  let option := GetCloudServiceContextOption serviceName
  match Build engine config [option] with
  | Except.error err => Except.error ("init logging cloud configs error: " ++ err)
  | Except.ok zapLogger =>
    let errorZapLogger :=
      if needErrorReporting then AddCloudErrorReportingOption zapLogger else zapLogger
    Except.ok (Logger.mk zapLogger zapLogger.Sugar errorZapLogger errorZapLogger.Sugar)

/-- Go `NewLocalLogger` (`logger.go`, lines 44-59). The first two results of
`getOptions` are discarded. -/
def NewLocalLogger (engine : Engine) (options : List Opt) : Except String Logger :=
  let (_, _, logLevel) := getOptions options
  let config := NewLocalZapConfig engine.NewDevelopmentEncoderConfig logLevel "console"
  match Build engine config [] with
  | Except.error err => Except.error ("init logging local configs error: " ++ err)
  | Except.ok zapLogger =>
    let errorZapLogger := zapLogger
    Except.ok (Logger.mk zapLogger zapLogger.Sugar errorZapLogger errorZapLogger.Sugar)

/-- A Go value of type `interface{}` handed to a templated or keyed method: an
integer, a string, or a slice `[]interface{}` of such values. -/
inductive Value where
  | int (n : Int)
  | str (s : String)
  | slice (vs : List Value)

/-- A call the facade makes on an engine handle.
* `logf recv lvl template args` is the sugared method of severity `lvl`
  (`Debugf`, `Infof`, `Warnf`, `Errorf`, `Fatalf`) called on `recv` with the
  template and the variadic arguments `args`, one list element per argument;
* `logw recv lvl msg keysAndValues` is the sugared keyed method of severity
  `lvl` (`Debugw` ... `Fatalw`), likewise;
* `log recv lvl msg fields` is the method of severity `lvl` of the plain
  handle (`Debug` ... `Fatal`);
* `Sync recv` is the flush of a sugared handle. -/
inductive EngineCall where
  | logf (recv : SugaredLogger) (lvl : Level) (template : String) (args : List Value)
  | logw (recv : SugaredLogger) (lvl : Level) (msg : String) (keysAndValues : List Value)
  | log (recv : ZapLogger) (lvl : Level) (msg : String) (fields : List ZapField)
  | Sync (recv : SugaredLogger)

/-- Whether a call is a flush. -/
def EngineCall.isSync : EngineCall → Bool
  | EngineCall.Sync _ => true
  | _ => false

/-- Severity at which a call emits, `none` for a flush. -/
def EngineCall.level? : EngineCall → Option Level
  | EngineCall.logf _ lvl _ _ => some lvl
  | EngineCall.logw _ lvl _ _ => some lvl
  | EngineCall.log _ lvl _ _ => some lvl
  | EngineCall.Sync _ => none

/-- The receiver of a call: a sugared handle or a plain handle. -/
inductive Receiver where
  | sugared (s : SugaredLogger)
  | plain (z : ZapLogger)

/-- Receiver of a call. -/
def EngineCall.receiver : EngineCall → Receiver
  | EngineCall.logf recv _ _ _ => Receiver.sugared recv
  | EngineCall.logw recv _ _ _ => Receiver.sugared recv
  | EngineCall.log recv _ _ _ => Receiver.plain recv
  | EngineCall.Sync recv => Receiver.sugared recv

/-- Body of a facade method: the calls registered with `defer` (in the order
they are registered, each inside a closure that assigns the result of the call
to the blank identifier) and the one call of the body proper. -/
structure Invocation where
  deferred : List EngineCall
  body : EngineCall

/-- Go `(*Logger).Debugf` (`logger.go`, lines 62-67). Inside the method `args`
is one slice value, and the source passes it on as a single argument. -/
def Debugf (l : Logger) (template : String) (args : List Value) : Invocation :=
  Invocation.mk [EngineCall.Sync l.sugar]
    (EngineCall.logf l.sugar DebugLevel template [Value.slice args])

/-- Go `(*Logger).Infof` (`logger.go`, lines 70-75). -/
def Infof (l : Logger) (template : String) (args : List Value) : Invocation :=
  Invocation.mk [EngineCall.Sync l.sugar]
    (EngineCall.logf l.sugar InfoLevel template [Value.slice args])

/-- Go `(*Logger).Warnf` (`logger.go`, lines 80-85). -/
def Warnf (l : Logger) (template : String) (args : List Value) : Invocation :=
  Invocation.mk [EngineCall.Sync l.sugar]
    (EngineCall.logf l.sugar WarnLevel template [Value.slice args])

/-- Go `(*Logger).Errorf` (`logger.go`, lines 90-95). The deferred flush is
that of `l.sugar`, the emission is on `l.errorSugar`. -/
def Errorf (l : Logger) (template : String) (args : List Value) : Invocation :=
  Invocation.mk [EngineCall.Sync l.sugar]
    (EngineCall.logf l.errorSugar ErrorLevel template [Value.slice args])

/-- Go `(*Logger).Fatalf` (`logger.go`, lines 98-103). -/
def Fatalf (l : Logger) (template : String) (args : List Value) : Invocation :=
  Invocation.mk [EngineCall.Sync l.sugar]
    (EngineCall.logf l.errorSugar FatalLevel template [Value.slice args])

/-- Go `(*Logger).Debugw` (`logger.go`, lines 107-112). Inside the method
`keysAndValues` is one slice value, passed on as a single argument. -/
def Debugw (l : Logger) (msg : String) (keysAndValues : List Value) : Invocation :=
  Invocation.mk [EngineCall.Sync l.sugar]
    (EngineCall.logw l.sugar DebugLevel msg [Value.slice keysAndValues])

/-- Go `(*Logger).Infow` (`logger.go`, lines 116-121). -/
def Infow (l : Logger) (msg : String) (keysAndValues : List Value) : Invocation :=
  Invocation.mk [EngineCall.Sync l.sugar]
    (EngineCall.logw l.sugar InfoLevel msg [Value.slice keysAndValues])

/-- Go `(*Logger).Warnw` (`logger.go`, lines 127-132). -/
def Warnw (l : Logger) (msg : String) (keysAndValues : List Value) : Invocation :=
  Invocation.mk [EngineCall.Sync l.sugar]
    (EngineCall.logw l.sugar WarnLevel msg [Value.slice keysAndValues])

/-- Go `(*Logger).Errorw` (`logger.go`, lines 138-143). -/
def Errorw (l : Logger) (msg : String) (keysAndValues : List Value) : Invocation :=
  Invocation.mk [EngineCall.Sync l.sugar]
    (EngineCall.logw l.errorSugar ErrorLevel msg [Value.slice keysAndValues])

/-- Go `(*Logger).Fatalw` (`logger.go`, lines 147-152). -/
def Fatalw (l : Logger) (msg : String) (keysAndValues : List Value) : Invocation :=
  Invocation.mk [EngineCall.Sync l.sugar]
    (EngineCall.logw l.errorSugar FatalLevel msg [Value.slice keysAndValues])

/-- Go `(*Logger).Debug` (`logger.go`, lines 155-157): the fields are spread
into the call (`field...`) and nothing is deferred. -/
def Debug (l : Logger) (msg : String) (field : List ZapField) : Invocation :=
  Invocation.mk [] (EngineCall.log l.zapLogger DebugLevel msg field)

/-- Go `(*Logger).Info` (`logger.go`, lines 160-162). -/
def Info (l : Logger) (msg : String) (field : List ZapField) : Invocation :=
  Invocation.mk [] (EngineCall.log l.zapLogger InfoLevel msg field)

/-- Go `(*Logger).Warn` (`logger.go`, lines 167-169). -/
def Warn (l : Logger) (msg : String) (field : List ZapField) : Invocation :=
  Invocation.mk [] (EngineCall.log l.zapLogger WarnLevel msg field)

/-- Go `(*Logger).Error` (`logger.go`, lines 174-176). -/
def Error (l : Logger) (msg : String) (field : List ZapField) : Invocation :=
  Invocation.mk [] (EngineCall.log l.errorZapLogger ErrorLevel msg field)

/-- Go `(*Logger).Fatal` (`logger.go`, lines 179-181). -/
def Fatal (l : Logger) (msg : String) (field : List ZapField) : Invocation :=
  Invocation.mk [] (EngineCall.log l.errorZapLogger FatalLevel msg field)

/-- How a call on the engine ends for its caller: it returns, it panics, or
it terminates the process (`os.Exit`). -/
inductive Outcome where
  | returns
  | panics
  | exits
  deriving DecidableEq

/-- Execution of a facade method under Go's rules for `defer`: the body call
is made; when it returns or panics the deferred calls run, last registered
first; when it terminates the process nothing more runs. The result is the
sequence of engine calls made and what the caller of the facade observes. The
facade methods have no result of their own and the deferred closures discard
the result of the flush, which is why the error `syncError` the engine gives
back from a flush is not looked at. -/
def run (outcome : EngineCall → Outcome) (_syncError : SugaredLogger → Option String)
    (m : Invocation) : List EngineCall × Outcome :=
  match outcome m.body with
  | Outcome.exits => ([m.body], Outcome.exits)
  | o => (m.body :: m.deferred.reverse, o)

/-- The engine's contract for the severities the facade exposes, as section
4.5 of the specification states it: a Fatal-severity emission terminates the
process after emitting; every other call returns. -/
def fatalExits : EngineCall → Outcome
  | EngineCall.logf _ lvl _ _ => if lvl = FatalLevel then Outcome.exits else Outcome.returns
  | EngineCall.logw _ lvl _ _ => if lvl = FatalLevel then Outcome.exits else Outcome.returns
  | EngineCall.log _ lvl _ _ => if lvl = FatalLevel then Outcome.exits else Outcome.returns
  | EngineCall.Sync _ => Outcome.returns

/-- An engine that accepts every configuration, for concrete evaluations. The
content of its development encoder configuration plays no part in them. -/
def acceptingEngine : Engine :=
  Engine.mk
    (EncoderConfig.mk "T" "L" "N" "C" "M" "S" TimeEncoder.ISO8601TimeEncoder DefaultLineEnding
      (fun _ enc => enc) DurationEncoder.StringDurationEncoder CallerEncoder.ShortCallerEncoder)
    (fun _ => none)

/-- A logger for concrete evaluations: the cloud logger for service `svc-a`
with error reporting, as `NewCloudLogger` yields it on an accepting engine. -/
def sampleLogger : Logger :=
  let zapLogger := ZapLogger.mk (NewCloudZapConfig "debug" "json")
    [ZapField.Object "serviceContext" (serviceContext.mk "svc-a")]
  let errorZapLogger := AddCloudErrorReportingOption zapLogger
  Logger.mk zapLogger zapLogger.Sugar errorZapLogger errorZapLogger.Sugar

/-- The cloud logger of the defaults (service `golang-app`, level `debug`, no
error reporting), as `NewCloudLogger` yields it without options on an
accepting engine: both handles are the same. -/
def sampleDefaultLogger : Logger :=
  let zapLogger := ZapLogger.mk (NewCloudZapConfig "debug" "json")
    [ZapField.Object "serviceContext" (serviceContext.mk "golang-app")]
  Logger.mk zapLogger zapLogger.Sugar zapLogger zapLogger.Sugar

/-- A second logger for concrete evaluations: the local logger at level
`error`, as `NewLocalLogger` yields it on the accepting engine. -/
def sampleLocalLogger : Logger :=
  let zapLogger := ZapLogger.mk
    (NewLocalZapConfig acceptingEngine.NewDevelopmentEncoderConfig "error" "console") []
  Logger.mk zapLogger zapLogger.Sugar zapLogger zapLogger.Sugar

/-- The ten templated and keyed methods called on `l` with text `s` and
arguments `vs`. -/
def templatedAndKeyed (l : Logger) (s : String) (vs : List Value) : List Invocation :=
  [Debugf l s vs, Infof l s vs, Warnf l s vs, Errorf l s vs, Fatalf l s vs,
   Debugw l s vs, Infow l s vs, Warnw l s vs, Errorw l s vs, Fatalw l s vs]

/-- The five structured-field methods called on `l` with message `s` and
fields `fs`. -/
def structuredField (l : Logger) (s : String) (fs : List ZapField) : List Invocation :=
  [Debug l s fs, Info l s fs, Warn l s fs, Error l s fs, Fatal l s fs]

/-- A facade method emits once on receiver `r` at severity `lvl`: its body is
a call on `r` at `lvl`, and however the engine ends that call, it is the first
call made and the only emission among the calls made. -/
def emitsOnceOn (m : Invocation) (r : Receiver) (lvl : Level) : Prop :=
  m.body.receiver = r ∧ m.body.level? = some lvl ∧
    ∀ (outcome : EngineCall → Outcome) (syncError : SugaredLogger → Option String),
      (run outcome syncError m).1.head? = some m.body ∧
      ((run outcome syncError m).1.filter (fun c => !c.isSync)).length = 1

/-! ## Properties of the severity mapper -/

/-- Claim C1, as stated, fails: the text "Warn" lower-cases to the alias
"warn", yet `unmarshalLogLevel` sends it to `InfoLevel` through the default
branch and not to `WarnLevel`. -/
theorem C1_mixed_case_counterexample :
    lowerCased "Warn" = "warn" ∧ unmarshalLogLevel "Warn" = InfoLevel ∧
      unmarshalLogLevel "Warn" ≠ WarnLevel := by
  decide

/-- Claim C1, amended: for every text that is the all-lower-case or the
all-upper-case spelling of one of the seven aliases, `unmarshalLogLevel`
returns the severity named by that alias. -/
theorem C1_unmarshalLogLevel_exact_spellings (text : String) :
    (text = "debug" ∨ text = "DEBUG" → unmarshalLogLevel text = DebugLevel) ∧
    (text = "info" ∨ text = "INFO" → unmarshalLogLevel text = InfoLevel) ∧
    (text = "warn" ∨ text = "WARN" → unmarshalLogLevel text = WarnLevel) ∧
    (text = "error" ∨ text = "ERROR" → unmarshalLogLevel text = ErrorLevel) ∧
    (text = "dpanic" ∨ text = "DPANIC" → unmarshalLogLevel text = DPanicLevel) ∧
    (text = "panic" ∨ text = "PANIC" → unmarshalLogLevel text = PanicLevel) ∧
    (text = "fatal" ∨ text = "FATAL" → unmarshalLogLevel text = FatalLevel) := by
  refine ⟨?_, ?_, ?_, ?_, ?_, ?_, ?_⟩ <;>
    · intro h
      rcases h with h | h <;> subst h <;> decide

/-- Witness of C1 amended at the text "WARN". -/
theorem C1_unmarshalLogLevel_exact_spellings_witness :
    ("WARN" = "warn" ∨ "WARN" = "WARN") ∧ unmarshalLogLevel "WARN" = WarnLevel :=
  ⟨Or.inr rfl, (C1_unmarshalLogLevel_exact_spellings "WARN").2.2.1 (Or.inr rfl)⟩

/-- Claim C3: `marshalLogLevel` sends the seven severities to DEBUG, INFO,
WARNING, ERROR, CRITICAL, ALERT and EMERGENCY; it is a total function (every
level value, also one outside the seven, gets a string of that vocabulary);
and `encodeLevel` appends exactly that string to the encoder. -/
theorem C3_marshalLogLevel_vocabulary :
    marshalLogLevel DebugLevel = "DEBUG" ∧
    marshalLogLevel InfoLevel = "INFO" ∧
    marshalLogLevel WarnLevel = "WARNING" ∧
    marshalLogLevel ErrorLevel = "ERROR" ∧
    marshalLogLevel DPanicLevel = "CRITICAL" ∧
    marshalLogLevel PanicLevel = "ALERT" ∧
    marshalLogLevel FatalLevel = "EMERGENCY" ∧
    (∀ l : Level, marshalLogLevel l ∈
      ["DEBUG", "INFO", "WARNING", "ERROR", "CRITICAL", "ALERT", "EMERGENCY"]) ∧
    (∀ (l : Level) (enc : PrimitiveArrayEncoder),
      encodeLevel l enc = enc ++ [marshalLogLevel l]) := by
  refine ⟨by decide, by decide, by decide, by decide, by decide, by decide, by decide, ?_, ?_⟩
  · intro l
    unfold marshalLogLevel
    split_ifs <;> simp
  · intro l enc
    rfl

/-- A text whose lower-cased form is none of the aliases is none of the
fourteen spellings that `unmarshalLogLevel` tells apart from the default. -/
theorem not_spelling_of_lowerCased_not_alias (text : String)
    (h : lowerCased text ∉ aliases) :
    ¬ (text = "debug" ∨ text = "DEBUG") ∧ ¬ (text = "warn" ∨ text = "WARN") ∧
    ¬ (text = "error" ∨ text = "ERROR") ∧ ¬ (text = "dpanic" ∨ text = "DPANIC") ∧
    ¬ (text = "panic" ∨ text = "PANIC") ∧ ¬ (text = "fatal" ∨ text = "FATAL") := by
  refine ⟨?_, ?_, ?_, ?_, ?_, ?_⟩ <;>
    · intro hs
      apply h
      rcases hs with hs | hs <;> subst hs <;> decide

/-- Claim C4: `unmarshalLogLevel` is total, its result being one of the seven
severities for every text, and for every text that is empty or whose
lower-cased form is none of the seven aliases the result is `InfoLevel`. -/
theorem C4_unmarshalLogLevel_default_info :
    (∀ text : String, unmarshalLogLevel text ∈ severities) ∧
    (∀ text : String, text = "" ∨ lowerCased text ∉ aliases →
      unmarshalLogLevel text = InfoLevel) := by
  constructor
  · intro text
    unfold unmarshalLogLevel
    split_ifs <;> decide
  · intro text h
    rcases h with h | h
    · subst h
      decide
    · obtain ⟨h1, h2, h3, h4, h5, h6⟩ := not_spelling_of_lowerCased_not_alias text h
      unfold unmarshalLogLevel
      simp only [h1, h2, h3, h4, h5, h6, if_false, ite_self]

/-- Witness of C4 at the unrecognised text "verbose". -/
theorem C4_unmarshalLogLevel_default_info_witness :
    ("verbose" = "" ∨ lowerCased "verbose" ∉ aliases) ∧
      unmarshalLogLevel "verbose" = InfoLevel :=
  ⟨Or.inr (by decide), C4_unmarshalLogLevel_default_info.2 "verbose" (Or.inr (by decide))⟩

/-! ## Properties of the configuration builders -/

/-- Claim C9: for every level text and encoding name the cloud configuration
has minimum severity `unmarshalLogLevel levelText`, development mode off,
sampling 1/1, the six cloud field keys, `encodeLevel` as level encoder and
`stderr` as only normal and only error destination; the local configuration
has minimum severity `unmarshalLogLevel levelText`, development mode on, no
sampling policy and the same destinations. Both carry the encoding name
they were given. -/
theorem C9_zap_configs (levelText encodingName : String) :
    (NewCloudZapConfig levelText encodingName).Level = unmarshalLogLevel levelText ∧
    (NewCloudZapConfig levelText encodingName).Development = false ∧
    (NewCloudZapConfig levelText encodingName).Sampling = some (SamplingConfig.mk 1 1) ∧
    (NewCloudZapConfig levelText encodingName).Encoding = encodingName ∧
    (NewCloudZapConfig levelText encodingName).EncoderConfig.TimeKey = "eventTime" ∧
    (NewCloudZapConfig levelText encodingName).EncoderConfig.LevelKey = "severity" ∧
    (NewCloudZapConfig levelText encodingName).EncoderConfig.NameKey = "logger" ∧
    (NewCloudZapConfig levelText encodingName).EncoderConfig.CallerKey = "caller" ∧
    (NewCloudZapConfig levelText encodingName).EncoderConfig.MessageKey = "message" ∧
    (NewCloudZapConfig levelText encodingName).EncoderConfig.StacktraceKey = "stack_trace" ∧
    (∀ (l : Level) (enc : PrimitiveArrayEncoder),
      (NewCloudZapConfig levelText encodingName).EncoderConfig.EncodeLevel l enc =
        enc ++ [marshalLogLevel l]) ∧
    (NewCloudZapConfig levelText encodingName).OutputPaths = ["stderr"] ∧
    (NewCloudZapConfig levelText encodingName).ErrorOutputPaths = ["stderr"] ∧
    (∀ dev : EncoderConfig,
      (NewLocalZapConfig dev levelText encodingName).Level = unmarshalLogLevel levelText ∧
      (NewLocalZapConfig dev levelText encodingName).Development = true ∧
      (NewLocalZapConfig dev levelText encodingName).Sampling = none ∧
      (NewLocalZapConfig dev levelText encodingName).Encoding = encodingName ∧
      (NewLocalZapConfig dev levelText encodingName).OutputPaths = ["stderr"] ∧
      (NewLocalZapConfig dev levelText encodingName).ErrorOutputPaths = ["stderr"]) := by
  refine ⟨rfl, rfl, rfl, rfl, rfl, rfl, rfl, rfl, rfl, rfl, ?_, rfl, rfl, ?_⟩
  · intro l enc
    rfl
  · intro dev
    exact ⟨rfl, rfl, rfl, rfl, rfl, rfl⟩

/-! ## Properties of the option resolver -/

/-- Applying the options of a list of overrides to a draft: each field ends at
the value of the last override of that field, or stays as in the draft. -/
theorem foldl_overrides (overrides : List Override) (draft : loggerOptions) :
    (overrides.map Override.toOpt).foldl (fun lo option => option lo) draft =
      loggerOptions.mk
        ((overrides.reverse.findSome? Override.needErrorReporting?).getD
          draft.needErrorReporting)
        ((overrides.reverse.findSome? Override.serviceName?).getD draft.serviceName)
        ((overrides.reverse.findSome? Override.logLevel?).getD draft.logLevel) := by
  induction overrides using List.reverseRecOn with
  | nil => rfl
  | append_singleton init o ih =>
    rw [List.map_append, List.foldl_append, ih, List.reverse_append]
    cases o <;> rfl

/-- Claim C5: for every list of overrides built from `NeedErrorReporting`,
`ServiceName` and `LogLevel`, `getOptions` returns for each field the value of
the last override of that field, or the default (false, "golang-app",
"debug") when there is none; and `NewLocalLogger (LogLevel "warn", LogLevel
"error")` builds its configuration, and on success its handle, with minimum
severity `ErrorLevel`. -/
theorem C5_getOptions_last_write_wins :
    (∀ overrides : List Override,
      getOptions (overrides.map Override.toOpt) = lastWriteWins overrides) ∧
    (∀ dev : EncoderConfig,
      (NewLocalZapConfig dev (getOptions [LogLevel "warn", LogLevel "error"]).2.2
        "console").Level = ErrorLevel) ∧
    (∀ (engine : Engine) (l : Logger),
      NewLocalLogger engine [LogLevel "warn", LogLevel "error"] = Except.ok l →
        l.zapLogger.config.Level = ErrorLevel) := by
  refine ⟨?_, ?_, ?_⟩
  · intro overrides
    simp only [getOptions, lastWriteWins, foldl_overrides, defaultNeedErrorReporting,
      defaultServiceName, defaultLogLevel]
  · intro dev
    show unmarshalLogLevel "error" = ErrorLevel
    decide
  · intro engine l h
    unfold NewLocalLogger Build at h
    cases hb : engine.buildError
        (NewLocalZapConfig engine.NewDevelopmentEncoderConfig
          (getOptions [LogLevel "warn", LogLevel "error"]).2.2 "console") with
    | some err => simp [hb] at h
    | none =>
      simp only [hb, List.foldl_nil] at h
      injection h with h
      subst h
      show unmarshalLogLevel "error" = ErrorLevel
      decide

/-- Witness of C5 on the accepting engine. -/
theorem C5_getOptions_last_write_wins_witness :
    NewLocalLogger acceptingEngine [LogLevel "warn", LogLevel "error"] =
      Except.ok sampleLocalLogger ∧
    sampleLocalLogger.zapLogger.config.Level = ErrorLevel :=
  ⟨rfl, C5_getOptions_last_write_wins.2.2 acceptingEngine sampleLocalLogger rfl⟩

/-! ## Properties of the constructors -/

/-- Claim C6: for every engine and options list such that the engine accepts
the cloud configuration of the resolved log level, `NewCloudLogger` succeeds,
and the logger it yields has a base handle carrying exactly one static field,
`serviceContext` holding the resolved service name (marshalled as the single
entry `service`), and no `@type` field; its error-path handle is the base
handle itself when the resolved `needErrorReporting` is false, and is the base
handle with the field `@type` = the error-reporting type URI added after its
fields when it is true. -/
theorem C6_NewCloudLogger_handles (engine : Engine) (options : List Opt)
    (h : engine.buildError (NewCloudZapConfig (getOptions options).2.2 "json") = none) :
    ∃ l : Logger, NewCloudLogger engine options = Except.ok l ∧
      l.zapLogger.config = NewCloudZapConfig (getOptions options).2.2 "json" ∧
      l.zapLogger.fields =
        [ZapField.Object "serviceContext" (serviceContext.mk (getOptions options).2.1)] ∧
      (serviceContext.mk (getOptions options).2.1).MarshalLogObject [] =
        ([("service", (getOptions options).2.1)], none) ∧
      (∀ f ∈ l.zapLogger.fields, f.key ≠ "@type") ∧
      ((getOptions options).1 = false → l.errorZapLogger = l.zapLogger) ∧
      ((getOptions options).1 = true →
        l.errorZapLogger.config = l.zapLogger.config ∧
        l.errorZapLogger.fields = l.zapLogger.fields ++ [ZapField.Str "@type"
          "type.googleapis.com/google.devtools.clouderrorreporting.v1beta1.ReportedErrorEvent"]) ∧
      l.sugar = l.zapLogger.Sugar ∧ l.errorSugar = l.errorZapLogger.Sugar := by
  unfold NewCloudLogger Build
  generalize getOptions options = g at h ⊢
  obtain ⟨needErrorReporting, serviceName, logLevel⟩ := g
  simp only at h
  simp only [h]
  refine ⟨_, rfl, rfl, rfl, rfl, ?_, ?_, ?_, rfl, rfl⟩
  · intro f hf
    have hf' : f = ZapField.Object "serviceContext" (serviceContext.mk serviceName) := by
      simpa [GetCloudServiceContextOption, ZapOption.apply, ZapLogger.With] using hf
    subst hf'
    show "serviceContext" ≠ "@type"
    decide
  · intro hn
    subst hn
    rfl
  · intro hn
    subst hn
    exact ⟨rfl, rfl⟩

/-- Witness of C6 on the accepting engine, at both values of the resolved
`needErrorReporting`: without options (the default, false) the logger is
`sampleDefaultLogger`, whose error-path handle is its base handle; for
service `svc-a` with error reporting it is `sampleLogger`, whose error-path
handle adds `@type` to the fields of the base handle. -/
theorem C6_NewCloudLogger_handles_witness :
    (acceptingEngine.buildError (NewCloudZapConfig (getOptions []).2.2 "json") = none ∧
      NewCloudLogger acceptingEngine [] = Except.ok sampleDefaultLogger ∧
      sampleDefaultLogger.zapLogger.fields =
        [ZapField.Object "serviceContext" (serviceContext.mk "golang-app")] ∧
      sampleDefaultLogger.errorZapLogger = sampleDefaultLogger.zapLogger) ∧
    (acceptingEngine.buildError (NewCloudZapConfig
        (getOptions [ServiceName "svc-a", NeedErrorReporting true]).2.2 "json") = none ∧
      NewCloudLogger acceptingEngine [ServiceName "svc-a", NeedErrorReporting true] =
        Except.ok sampleLogger ∧
      sampleLogger.zapLogger.fields =
        [ZapField.Object "serviceContext" (serviceContext.mk "svc-a")] ∧
      sampleLogger.errorZapLogger.fields =
        [ZapField.Object "serviceContext" (serviceContext.mk "svc-a"), ZapField.Str "@type"
          "type.googleapis.com/google.devtools.clouderrorreporting.v1beta1.ReportedErrorEvent"]) := by
  constructor
  · obtain ⟨l, hl, _, hfields, _, _, hfalse, _, _, _⟩ :=
      C6_NewCloudLogger_handles acceptingEngine [] rfl
    have hl' : l = sampleDefaultLogger :=
      Except.ok.inj (hl.symm.trans (rfl : NewCloudLogger acceptingEngine [] = _))
    subst hl'
    exact ⟨rfl, hl, hfields, hfalse rfl⟩
  · obtain ⟨l, hl, _, hfields, _, _, _, htrue, _, _⟩ :=
      C6_NewCloudLogger_handles acceptingEngine
        [ServiceName "svc-a", NeedErrorReporting true] rfl
    have hl' : l = sampleLogger :=
      Except.ok.inj (hl.symm.trans
        (rfl : NewCloudLogger acceptingEngine
          [ServiceName "svc-a", NeedErrorReporting true] = _))
    subst hl'
    exact ⟨rfl, hl, hfields, (htrue rfl).2⟩

/-- Claim C10: whenever `NewLocalLogger` succeeds, whatever the options, the
error-path handle is the base handle and the handles carry no static field at
all, so neither `serviceContext` nor `@type`; and two option lists that
resolve to the same log level give the same result. -/
theorem C10_NewLocalLogger_plain (engine : Engine) :
    (∀ (options : List Opt) (l : Logger),
      NewLocalLogger engine options = Except.ok l →
        l.errorZapLogger = l.zapLogger ∧ l.errorSugar = l.sugar ∧
        l.sugar = l.zapLogger.Sugar ∧ l.zapLogger.fields = [] ∧
        (∀ f ∈ l.zapLogger.fields, f.key ≠ "serviceContext" ∧ f.key ≠ "@type") ∧
        (∀ f ∈ l.errorZapLogger.fields, f.key ≠ "serviceContext" ∧ f.key ≠ "@type")) ∧
    (∀ options options' : List Opt,
      (getOptions options).2.2 = (getOptions options').2.2 →
        NewLocalLogger engine options = NewLocalLogger engine options') := by
  constructor
  · intro options l h
    unfold NewLocalLogger Build at h
    generalize getOptions options = g at h
    obtain ⟨needErrorReporting, serviceName, logLevel⟩ := g
    simp only at h
    cases hb : engine.buildError
        (NewLocalZapConfig engine.NewDevelopmentEncoderConfig logLevel "console") with
    | some err => simp [hb] at h
    | none =>
      simp only [hb, List.foldl_nil] at h
      injection h with h
      subst h
      refine ⟨rfl, rfl, rfl, rfl, ?_, ?_⟩ <;>
        · intro f hf
          simp at hf
  · intro options options' h
    unfold NewLocalLogger
    generalize getOptions options = g at h ⊢
    generalize getOptions options' = g' at h ⊢
    obtain ⟨a, b, c⟩ := g
    obtain ⟨a', b', c'⟩ := g'
    simp only at h
    subst h
    rfl

/-- Witness of C10: a local logger asked for error reporting and a service
name on the accepting engine. -/
theorem C10_NewLocalLogger_plain_witness :
    NewLocalLogger acceptingEngine
      [NeedErrorReporting true, ServiceName "svc-a", LogLevel "error"] =
        Except.ok sampleLocalLogger ∧
    sampleLocalLogger.errorZapLogger = sampleLocalLogger.zapLogger ∧
    sampleLocalLogger.zapLogger.fields = [] :=
  ⟨rfl,
   ((C10_NewLocalLogger_plain acceptingEngine).1
      [NeedErrorReporting true, ServiceName "svc-a", LogLevel "error"]
      sampleLocalLogger rfl).1,
   ((C10_NewLocalLogger_plain acceptingEngine).1
      [NeedErrorReporting true, ServiceName "svc-a", LogLevel "error"]
      sampleLocalLogger rfl).2.2.2.1⟩

/-! ## Properties of the emission methods -/

/-- A method whose deferred calls are all flushes and whose body is an
emission emits once on the receiver of its body at the level of its body. -/
theorem emitsOnceOn_of_body (m : Invocation) (r : Receiver) (lvl : Level)
    (hr : m.body.receiver = r) (hl : m.body.level? = some lvl)
    (hb : m.body.isSync = false) (hd : ∀ c ∈ m.deferred, c.isSync = true) :
    emitsOnceOn m r lvl := by
  refine ⟨hr, hl, ?_⟩
  intro outcome syncError
  have hnone : m.deferred.reverse.filter (fun c => !c.isSync) = [] := by
    rw [List.filter_eq_nil_iff]
    intro c hc
    simp [hd c (List.mem_reverse.mp hc)]
  unfold run
  cases outcome m.body <;> simp [hb, hnone]

/-- Claim C7: for every logger and every call, each of the fifteen methods
emits once, at its own severity, on the handle its severity prescribes:
Debug, Info and Warn variants on the base handle (`sugar` for the templated
and keyed variants, `zapLogger` for the structured ones), Error and Fatal
variants on the error-path handle (`errorSugar`, `errorZapLogger`). -/
theorem C7_dispatch (l : Logger) (s : String) (vs : List Value) (fs : List ZapField) :
    emitsOnceOn (Debugf l s vs) (Receiver.sugared l.sugar) DebugLevel ∧
    emitsOnceOn (Debugw l s vs) (Receiver.sugared l.sugar) DebugLevel ∧
    emitsOnceOn (Debug l s fs) (Receiver.plain l.zapLogger) DebugLevel ∧
    emitsOnceOn (Infof l s vs) (Receiver.sugared l.sugar) InfoLevel ∧
    emitsOnceOn (Infow l s vs) (Receiver.sugared l.sugar) InfoLevel ∧
    emitsOnceOn (Info l s fs) (Receiver.plain l.zapLogger) InfoLevel ∧
    emitsOnceOn (Warnf l s vs) (Receiver.sugared l.sugar) WarnLevel ∧
    emitsOnceOn (Warnw l s vs) (Receiver.sugared l.sugar) WarnLevel ∧
    emitsOnceOn (Warn l s fs) (Receiver.plain l.zapLogger) WarnLevel ∧
    emitsOnceOn (Errorf l s vs) (Receiver.sugared l.errorSugar) ErrorLevel ∧
    emitsOnceOn (Errorw l s vs) (Receiver.sugared l.errorSugar) ErrorLevel ∧
    emitsOnceOn (Error l s fs) (Receiver.plain l.errorZapLogger) ErrorLevel ∧
    emitsOnceOn (Fatalf l s vs) (Receiver.sugared l.errorSugar) FatalLevel ∧
    emitsOnceOn (Fatalw l s vs) (Receiver.sugared l.errorSugar) FatalLevel ∧
    emitsOnceOn (Fatal l s fs) (Receiver.plain l.errorZapLogger) FatalLevel := by
  refine ⟨?_, ?_, ?_, ?_, ?_, ?_, ?_, ?_, ?_, ?_, ?_, ?_, ?_, ?_, ?_⟩ <;>
    · apply emitsOnceOn_of_body
      · rfl
      · rfl
      · rfl
      · intro c hc
        first
          | exact absurd hc (List.not_mem_nil c)
          | (rw [List.mem_singleton.mp hc]; rfl)

/-- Claim C8, as stated, fails for the Fatal variants: under the engine's
contract that a Fatal-severity emission terminates the process, `Fatalf` and
`Fatalw` make their emission and no flush call at all, the deferred flush
never being reached. -/
theorem C8_fatal_never_flushes_counterexample :
    ((run fatalExits (fun _ => none) (Fatalf sampleLogger "x" [])).1.filter
      EngineCall.isSync).length = 0 ∧
    ((run fatalExits (fun _ => none) (Fatalw sampleLogger "x" [])).1.filter
      EngineCall.isSync).length = 0 ∧
    (run fatalExits (fun _ => none) (Fatalf sampleLogger "x" [])).2 = Outcome.exits := by
  decide

/-- Claim C8, amended: every templated and keyed method defers one flush of
`l.sugar` whose result is discarded, so that whenever the engine does not
terminate the process inside the emission the calls made are the emission and
then exactly that one flush, and the caller observes the outcome of the
emission; under the engine's contract this is so for the Debug, Info, Warn
and Error variants, while `Fatalf` and `Fatalw` end the process at the
emission without a flush; every structured-field method makes no flush
call; and no result depends on the error a flush gives back. -/
theorem C8_flush_after_emission (outcome : EngineCall → Outcome) (l : Logger) (s : String)
    (vs : List Value) (fs : List ZapField) (syncError : SugaredLogger → Option String) :
    (∀ m ∈ templatedAndKeyed l s vs, outcome m.body ≠ Outcome.exits →
      run outcome syncError m = ([m.body, EngineCall.Sync l.sugar], outcome m.body) ∧
      ((run outcome syncError m).1.filter EngineCall.isSync).length = 1) ∧
    (∀ m ∈ [Debugf l s vs, Infof l s vs, Warnf l s vs, Errorf l s vs,
            Debugw l s vs, Infow l s vs, Warnw l s vs, Errorw l s vs],
      run fatalExits syncError m = ([m.body, EngineCall.Sync l.sugar], Outcome.returns)) ∧
    (∀ m ∈ [Fatalf l s vs, Fatalw l s vs],
      run fatalExits syncError m = ([m.body], Outcome.exits)) ∧
    (∀ m ∈ structuredField l s fs,
      ((run outcome syncError m).1.filter EngineCall.isSync).length = 0) ∧
    (∀ (m : Invocation) (syncError' : SugaredLogger → Option String),
      run outcome syncError m = run outcome syncError' m) := by
  refine ⟨?_, ?_, ?_, ?_, ?_⟩
  · intro m hm hne
    simp only [templatedAndKeyed, List.mem_cons, List.mem_singleton, List.not_mem_nil,
      or_false] at hm
    rcases hm with h | h | h | h | h | h | h | h | h | h <;> subst h <;>
      · unfold run
        revert hne
        cases outcome _ <;> intro hne <;>
          first
            | exact absurd rfl hne
            | exact ⟨rfl, rfl⟩
  · intro m hm
    simp only [List.mem_cons, List.mem_singleton, List.not_mem_nil, or_false] at hm
    rcases hm with h | h | h | h | h | h | h | h <;> subst h <;> rfl
  · intro m hm
    simp only [List.mem_cons, List.mem_singleton, List.not_mem_nil, or_false] at hm
    rcases hm with h | h <;> subst h <;> rfl
  · intro m hm
    simp only [structuredField, List.mem_cons, List.mem_singleton, List.not_mem_nil,
      or_false] at hm
    rcases hm with h | h | h | h | h <;> subst h <;>
      · unfold run
        cases outcome _ <;> rfl
  · intro m syncError'
    rfl

/-- Witness of C8 amended: `Warnf` under the engine's contract. -/
theorem C8_flush_after_emission_witness :
    Warnf sampleLogger "x=%d" [Value.int 5] ∈
      templatedAndKeyed sampleLogger "x=%d" [Value.int 5] ∧
    fatalExits (Warnf sampleLogger "x=%d" [Value.int 5]).body ≠ Outcome.exits ∧
    ((run fatalExits (fun _ => none) (Warnf sampleLogger "x=%d" [Value.int 5])).1.filter
      EngineCall.isSync).length = 1 :=
  ⟨by simp [templatedAndKeyed], by decide,
   ((C8_flush_after_emission fatalExits sampleLogger "x=%d" [Value.int 5] []
      (fun _ => none)).1 _ (by simp [templatedAndKeyed]) (by decide)).2⟩

/-- Claim C2 at its own example: called as `Warnf("x=%d", 5)`, the facade
hands the engine the template with one argument, the slice holding 5, and
not the argument 5 itself; the same holds for the four sibling methods. -/
theorem C2_Warnf_hands_over_one_slice :
    (Warnf sampleLogger "x=%d" [Value.int 5]).body =
      EngineCall.logf sampleLogger.sugar WarnLevel "x=%d" [Value.slice [Value.int 5]] ∧
    (Warnf sampleLogger "x=%d" [Value.int 5]).body ≠
      EngineCall.logf sampleLogger.sugar WarnLevel "x=%d" [Value.int 5] ∧
    (∀ (l : Logger) (template : String) (args : List Value),
      (Debugf l template args).body =
        EngineCall.logf l.sugar DebugLevel template [Value.slice args] ∧
      (Infof l template args).body =
        EngineCall.logf l.sugar InfoLevel template [Value.slice args] ∧
      (Warnf l template args).body =
        EngineCall.logf l.sugar WarnLevel template [Value.slice args] ∧
      (Errorf l template args).body =
        EngineCall.logf l.errorSugar ErrorLevel template [Value.slice args] ∧
      (Fatalf l template args).body =
        EngineCall.logf l.errorSugar FatalLevel template [Value.slice args]) := by
  refine ⟨rfl, ?_, fun _ _ _ => ⟨rfl, rfl, rfl, rfl, rfl⟩⟩
  intro h
  simp [Warnf] at h

end Cloudlog
